import Mathlib

/-!
# Verification of the Seamless rule-based ad targeting and ranking pipeline

Shallow embedding of the core of the `seamless_ads` package:

* `schemas.py`        — the request-scoped value objects (`UserProfile`,
  `DetectedObject`, `VideoMetadata` and its nested `EpisodeMetadata` /
  `ProductSignal`, `AdAttributes`, `ProductResult`, `OverlaySpec`,
  `SeamlessAdResponse`) together with their pydantic field validators;
* `recommender.py`    — `AdRecommender._build_targeting_context`,
  `AdRecommender._episode_terms`, `AdRecommender._prominent_products`,
  `AdRecommender._select_product`, `AdRecommender.recommend`;
* `kroger_search.py`  — `_price_filter`, `_build_query`, `_rank_results`,
  `find_kroger_products` (with the catalog client abstracted to a function,
  matching the `ToolClient` capability interface);
* `service.py`        — `SeamlessAdService._select_overlay` and
  `SeamlessAdService.generate_ad_response`;
* `user_profiles.py`  — `USER_PERSONAS` and `get_user_profile`.

Python floats that only ever flow through arithmetic comparisons (prices,
confidences, affinity scores, timestamps) are modelled as rationals `ℚ`;
Python dicts are association lists queried with `dict.get` semantics;
Python sets of lowercased strings are lists queried by membership.
Python's stable builtin `sorted` is modelled by `List.mergeSort`, which is a
stable merge sort with the same specification.  Fallible constructors and
functions that can raise return `Option` / `Except`.
-/

/-- `d.get(k, default)` on a Python `dict[str, float]`, dict modelled as an
association list. -/
def dictGetQ (d : List (String × ℚ)) (k : String) (default : ℚ) : ℚ :=
  match d.lookup k with
  | some v => v
  | none => default

/-- `d.get(k)` on a Python `dict[str, bool]` used in a boolean context
(`None` is falsy). -/
def dictGetB (d : List (String × Bool)) (k : String) : Bool :=
  match d.lookup k with
  | some v => v
  | none => false

/-- `startsWithChars pat s`: the char list `pat` is an initial segment of `s`. -/
def startsWithChars : List Char → List Char → Bool
  | [], _ => true
  | _ :: _, [] => false
  | a :: as, b :: bs => a == b && startsWithChars as bs

/-- Contiguous-substring test on char lists. -/
def charsIn (pat : List Char) : List Char → Bool
  | [] => pat == []
  | c :: rest => startsWithChars pat (c :: rest) || charsIn pat rest

/-- Python's `pat in s` on strings: contiguous substring containment. -/
def strIn (pat s : String) : Bool :=
  charsIn pat.data s.data

/-- Python's `str.lower()`, written structurally over the character list so
that it evaluates by kernel reduction on concrete inputs. -/
def strLower (s : String) : String :=
  String.mk (s.data.map Char.toLower)

/-- Python's `str.upper()`, structurally over the character list. -/
def strUpper (s : String) : String :=
  String.mk (s.data.map Char.toUpper)

/-- Python's `str.strip()`: drop leading and trailing whitespace. -/
def strStrip (s : String) : String :=
  String.mk
    (((s.data.dropWhile Char.isWhitespace).reverse.dropWhile Char.isWhitespace).reverse)

/-- `Literal["low", "med", "high"]` for `price_sensitivity` (schemas.py). -/
inductive PriceSensitivity where
  | low
  | med
  | high
deriving DecidableEq, Repr

/-- `Literal["indulgent", "balanced", "healthy"]` for `health_tilt`. -/
inductive HealthTilt where
  | indulgent
  | balanced
  | healthy
deriving DecidableEq, Repr

/-- `Literal["pickup", "delivery", "any"]` for `delivery_preference`. -/
inductive DeliveryPreference where
  | pickup
  | delivery
  | any
deriving DecidableEq, Repr

/-- `Literal["low", "med", "high"]` for a product signal's `prominence`. -/
inductive Prominence where
  | low
  | med
  | high
deriving DecidableEq, Repr

/-- `UserProfile` (schemas.py).  The two affinity dicts map names to float
scores, modelled as `ℚ`; `engagement_signals` maps signal names to booleans. -/
structure UserProfile where
  age_range : String
  household_size : Int
  location_zip : Option String
  location_metro : Option String
  dietary_preferences : List String
  brand_affinities : List (String × ℚ)
  cuisine_affinities : List (String × ℚ)
  watch_time_context : String
  engagement_signals : List (String × Bool)
deriving DecidableEq, Repr

/-- `AdAttributes` (schemas.py): the derived targeting context. -/
structure AdAttributes where
  target_category : String
  price_sensitivity : PriceSensitivity
  health_tilt : HealthTilt
  delivery_preference : DeliveryPreference
deriving DecidableEq, Repr

/-- `DetectedObject` (schemas.py). -/
structure DetectedObject where
  label : String
  confidence : ℚ
  bbox : List ℚ
deriving DecidableEq, Repr

/-- `VideoMetadata.EpisodeMetadata.ProductSignal` (schemas.py). -/
structure ProductSignal where
  category : String
  labels : List String
  brands : List String
  prominence : Prominence
deriving DecidableEq, Repr

/-- `VideoMetadata.EpisodeMetadata` (schemas.py). -/
structure EpisodeMetadata where
  show_title : String
  season : Int
  episode : Int
  episode_title : String
  original_release_date : Option String
  running_time_minutes : Option Int
  maturity_rating : Option String
  genres : List String
  tone_tags : List String
  setting_tags : List String
  keywords : List String
  prominent_products : List ProductSignal
deriving DecidableEq, Repr

/-- `VideoMetadata` (schemas.py): one scene's normalized metadata. -/
structure VideoMetadata where
  scene_id : String
  timestamp_range : List ℚ
  detected_objects : List DetectedObject
  scene_tags : List String
  dialogue_keywords : List String
  episode : Option EpisodeMetadata
deriving DecidableEq, Repr

/-- `ProductResult` (schemas.py). -/
structure ProductResult where
  product_id : String
  name : String
  price : ℚ
  size : String
  unit : String
  in_stock : Bool
  image_url : String
  kroger_search_query : String
deriving DecidableEq, Repr

/-- `OverlaySpec` (schemas.py). -/
structure OverlaySpec where
  bbox : List ℚ
  detected_label : String
  selected_product_key : String
deriving DecidableEq, Repr

/-- `SeamlessAdResponse` (schemas.py). -/
structure SeamlessAdResponse where
  scene_id : String
  timestamp_range : List ℚ
  overlay : OverlaySpec
  user_profile : UserProfile
  targeting_context : AdAttributes
  kroger_results : List ProductResult
  rationale : List String
deriving DecidableEq, Repr

/-- `AdRecommender._episode_terms` (recommender.py): the lowercased union of
genres, tone tags, setting tags, keywords, show title and episode title; empty
set when the scene has no episode metadata. -/
def episodeTerms (scene : VideoMetadata) : List String :=
  match scene.episode with
  | none => []
  | some ep =>
      ep.genres.map strLower ++ ep.tone_tags.map strLower ++
        ep.setting_tags.map strLower ++ ep.keywords.map strLower ++
        [strLower ep.show_title, strLower ep.episode_title]

/-- `AdRecommender._prominent_products` (recommender.py): lowercased categories,
labels and brands of every episode prominent-product signal. -/
def prominentProducts (scene : VideoMetadata) : List String :=
  match scene.episode with
  | none => []
  | some ep =>
      (ep.prominent_products.map fun p =>
        strLower p.category :: (p.labels.map strLower ++ p.brands.map strLower)).flatten

/-- `AdRecommender._build_targeting_context` (recommender.py).  Each attribute
is computed by the source's sequence of overwriting `if` statements, written
here as a chain of `let`-rebindings in the same order. -/
def buildTargetingContext (user : UserProfile) (scene : VideoMetadata) : AdAttributes :=
  let eterms := episodeTerms scene
  let prom := prominentProducts scene
  let ps0 := PriceSensitivity.med
  let ps1 := if dictGetB user.engagement_signals "often_uses_deals" then PriceSensitivity.low else ps0
  let ps2 := if dictGetB user.engagement_signals "prefers_premium" then PriceSensitivity.high else ps1
  let prefs := user.dietary_preferences.map strLower
  let ht0 := HealthTilt.balanced
  let ht1 := if prefs.contains "low_sugar" || prefs.contains "low_fat" || prefs.contains "healthy" then HealthTilt.healthy else ht0
  let ht2 := if prefs.contains "indulgent" || prefs.contains "comfort_food" then HealthTilt.indulgent else ht1
  let dp0 := DeliveryPreference.any
  let dp1 := if dictGetB user.engagement_signals "prefers_delivery" then DeliveryPreference.delivery else dp0
  let dp2 := if dictGetB user.engagement_signals "prefers_pickup" then DeliveryPreference.pickup else dp1
  let tc0 := "snacks"
  let tc1 := if prom.contains "pizza" then "frozen" else tc0
  let tc2 := if prom.contains "beverage" || prom.contains "soda" || prom.contains "cola" then "beverage" else tc1
  let tc3 := if (["pizza", "dinner", "late_night"].any scene.scene_tags.contains) ||
      (["late_night", "sleepover", "game_night"].any eterms.contains) then "frozen" else tc2
  let tc4 := if (["beverage", "soda", "cola", "drink"].any scene.scene_tags.contains) ||
      (["beverage", "soda", "cola"].any eterms.contains) then "beverage" else tc3
  { target_category := tc4
    price_sensitivity := ps2
    health_tilt := ht2
    delivery_preference := dp2 }

/-- `AdRecommender._select_product` (recommender.py): the prioritized rule
cascade choosing a product key and accumulating rationale strings. -/
def selectProduct (user : UserProfile) (scene : VideoMetadata) (targeting : AdAttributes) :
    String × List String :=
  let labels := scene.detected_objects.map fun o => strLower o.label
  let tags := scene.scene_tags.map strLower
  let dialogue := scene.dialogue_keywords.map strLower
  let eterms := episodeTerms scene
  let prom := prominentProducts scene
  let allTerms := labels ++ tags ++ dialogue ++ eterms
  let pizzaSignals := ["pizza", "slice", "cheesy"].any allTerms.contains
  let beverageSignals := ["soda", "cola", "coke", "beverage", "drink", "can"].any allTerms.contains
  let techSignals := ["laptop", "computer", "device", "work", "surveillance", "lab",
    "investigation"].any allTerms.contains
  let hangoutSignals := ["kids", "friends", "sleepover", "game_night", "dungeons & dragons",
    "dungeons_and_dragons", "arcade", "suburb", "small_town"].any allTerms.contains
  let cokeAffinity := dictGetQ user.brand_affinities "Coca-Cola" 0
  if prom.contains "pizza" then
    ("pizza", ["Episode metadata shows prominent pizza presence"])
  else if prom.contains "beverage" || prom.contains "soda" || prom.contains "cola" then
    ("coke", "Episode metadata shows prominent beverage presence" ::
      (if cokeAffinity ≥ (0.6 : ℚ) then ["User affinity tilts toward Coca-Cola"] else []))
  else if pizzaSignals then
    ("pizza", "Scene contains food/hangout cues aligned with pizza" ::
      (if strIn "late_night" user.watch_time_context || allTerms.contains "late_night" ||
          allTerms.contains "night" then
        ["Night context favors warm comfort food"] else []))
  else if techSignals then
    ("laptop", ["Episode/scene suggests tech/work context"])
  else if hangoutSignals then
    ("pizza", ["Episode/scene suggests a group hangout vibe (pizza-friendly)"])
  else if beverageSignals then
    ("coke", "Scene contains beverage cues" ::
      (if cokeAffinity ≥ (0.6 : ℚ) then ["High Coca-Cola brand affinity"] else []))
  else if cokeAffinity ≥ (0.6 : ℚ) ∧ (targeting.target_category = "beverage" ∨
      (["beverage", "soda", "cola"].any allTerms.contains) = true) then
    ("coke", ["No strong visual cues; fell back to top brand affinity (Coca-Cola)"])
  else if targeting.target_category = "beverage" then
    ("coke", ["Defaulted to universal placement", "Targeting favors beverage category"])
  else if targeting.target_category = "frozen" then
    ("pizza", ["Defaulted to universal placement", "Targeting favors frozen category"])
  else
    ("laptop", ["Defaulted to universal placement"])

/-- `AdRecommender.recommend` (recommender.py). -/
def recommend (user : UserProfile) (scene : VideoMetadata) :
    String × List String × AdAttributes :=
  let targeting := buildTargetingContext user scene
  let (productKey, rationale) := selectProduct user scene targeting
  (productKey, rationale, targeting)

/-- The beverage condition of the scene-tag / episode-term tier of
`_build_targeting_context` (recommender.py, lines 46-48). -/
def bevSceneSignal (scene : VideoMetadata) : Bool :=
  (["beverage", "soda", "cola", "drink"].any scene.scene_tags.contains) ||
    (["beverage", "soda", "cola"].any (episodeTerms scene).contains)

/-- The frozen condition of the scene-tag / episode-term tier of
`_build_targeting_context` (recommender.py, lines 42-44). -/
def frozenSceneSignal (scene : VideoMetadata) : Bool :=
  (["pizza", "dinner", "late_night"].any scene.scene_tags.contains) ||
    (["late_night", "sleepover", "game_night"].any (episodeTerms scene).contains)

/-- The beverage condition of the prominent-products tier of
`_build_targeting_context` (recommender.py, line 40). -/
def bevPromSignal (scene : VideoMetadata) : Bool :=
  (prominentProducts scene).contains "beverage" ||
    (prominentProducts scene).contains "soda" ||
    (prominentProducts scene).contains "cola"

/-- A persona with a high Coca-Cola affinity (used as a concrete input). -/
def sampleUser : UserProfile :=
  { age_range := "25-34"
    household_size := 2
    location_zip := some "94107"
    location_metro := none
    dietary_preferences := ["comfort_food"]
    brand_affinities := [("Coca-Cola", 0.85)]
    cuisine_affinities := []
    watch_time_context := "late_night"
    engagement_signals := [("often_uses_deals", true)] }

/-- A scene whose episode prominent products contain pizza while the scene
itself carries beverage cues (detected `can`, tag `soda`, dialogue `cola`). -/
def scenePizzaProm : VideoMetadata :=
  { scene_id := "s1"
    timestamp_range := [10, 20]
    detected_objects := [{ label := "Can", confidence := 0.9, bbox := [0, 0, 1, 1] }]
    scene_tags := ["soda"]
    dialogue_keywords := ["cola"]
    episode := some
      { show_title := "Stranger Things"
        season := 4
        episode := 1
        episode_title := "Chapter One"
        original_release_date := none
        running_time_minutes := some 50
        maturity_rating := some "TV-14"
        genres := ["sci-fi"]
        tone_tags := []
        setting_tags := []
        keywords := []
        prominent_products := [⟨"Pizza", ["pizza"], ["Surfer Boy"], Prominence.high⟩] } }

/-- A scene whose only beverage signal sits in the episode prominent products
while the scene tags carry a frozen/pizza signal. -/
def sceneBevPromPizzaTag : VideoMetadata :=
  { scene_id := "s2"
    timestamp_range := [0, 5]
    detected_objects := []
    scene_tags := ["pizza"]
    dialogue_keywords := []
    episode := some
      { show_title := "Stranger Things"
        season := 4
        episode := 2
        episode_title := "Chapter Two"
        original_release_date := none
        running_time_minutes := none
        maturity_rating := none
        genres := []
        tone_tags := []
        setting_tags := []
        keywords := []
        prominent_products := [⟨"beverage", [], [], Prominence.med⟩] } }

/-- C1: whenever the episode prominent-products set contains `"pizza"`, the
Product-Key Selector returns `"pizza"` with exactly the episode-prominence
rationale, for every user, scene and targeting context — so in particular even
when the scene carries beverage cues: the episode-prominence pizza rule is the
first rule of the cascade and has strict priority over every scene-cue rule. -/
theorem selectProduct_prominent_pizza_priority
    (user : UserProfile) (scene : VideoMetadata) (targeting : AdAttributes)
    (h : (prominentProducts scene).contains "pizza" = true) :
    selectProduct user scene targeting =
      ("pizza", ["Episode metadata shows prominent pizza presence"]) := by
  unfold selectProduct
  simp only [h]
  rfl

/-- Witness for C1: a concrete scene whose episode prominent products contain
pizza and which also carries beverage cues (detected label `can`, scene tag
`soda`, dialogue keyword `cola`) still selects pizza. -/
theorem selectProduct_prominent_pizza_priority_witness :
    (prominentProducts scenePizzaProm).contains "pizza" = true ∧
      selectProduct sampleUser scenePizzaProm
        (buildTargetingContext sampleUser scenePizzaProm) =
        ("pizza", ["Episode metadata shows prominent pizza presence"]) :=
  ⟨by decide,
    selectProduct_prominent_pizza_priority sampleUser scenePizzaProm
      (buildTargetingContext sampleUser scenePizzaProm) (by decide)⟩

/-- Counterexample to C2 as stated: in `sceneBevPromPizzaTag` a
beverage-suggesting signal is present (prominent-products category
`"beverage"`) and a frozen-suggesting signal is present (scene tag `"pizza"`),
yet the Targeting-Context Builder returns `"frozen"`, not `"beverage"`: the
scene-tag/episode-term frozen check runs after — and overwrites — the
prominent-products beverage check. -/
theorem buildTargetingContext_beverage_not_always :
    (prominentProducts sceneBevPromPizzaTag).contains "beverage" = true ∧
      sceneBevPromPizzaTag.scene_tags.contains "pizza" = true ∧
      (buildTargetingContext sampleUser sceneBevPromPizzaTag).target_category = "frozen" ∧
      (buildTargetingContext sampleUser sceneBevPromPizzaTag).target_category ≠ "beverage" := by
  refine ⟨by decide, by decide, by decide, by decide⟩

/-- The `target_category` attribute of `_build_targeting_context`, expressed
through the three tier conditions: the source's four sequential overwrites are
definitionally the last matching check. -/
theorem buildTargetingContext_target_category (user : UserProfile) (scene : VideoMetadata) :
    (buildTargetingContext user scene).target_category =
      (if bevSceneSignal scene then "beverage"
       else if frozenSceneSignal scene then "frozen"
       else if bevPromSignal scene then "beverage"
       else if (prominentProducts scene).contains "pizza" then "frozen"
       else "snacks") := rfl

/-- C2 as amended: beverage wins within each tier, but the scene-tag /
episode-term tier runs last and overwrites the prominent-products tier.  So
`target_category` is `"beverage"` whenever (i) a beverage signal is present
among the scene tags (`beverage`/`soda`/`cola`/`drink`) or the episode terms
(`beverage`/`soda`/`cola`), or (ii) a beverage signal is present among the
prominent products (`beverage`/`soda`/`cola`) and the scene-tag/episode-term
tier fires neither its frozen nor its beverage check. -/
theorem buildTargetingContext_beverage_priority
    (user : UserProfile) (scene : VideoMetadata)
    (h : bevSceneSignal scene = true ∨
      (bevPromSignal scene = true ∧ frozenSceneSignal scene = false ∧
        bevSceneSignal scene = false)) :
    (buildTargetingContext user scene).target_category = "beverage" := by
  rw [buildTargetingContext_target_category]
  rcases h with h | ⟨h1, h2, h3⟩
  · simp [h]
  · simp [h1, h2, h3]

/-- Witness for C2 (amended): a scene tag `"soda"` forces the beverage target
category even though the episode prominent products indicate pizza. -/
theorem buildTargetingContext_beverage_priority_witness :
    bevSceneSignal scenePizzaProm = true ∧
      (buildTargetingContext sampleUser scenePizzaProm).target_category = "beverage" :=
  ⟨by decide,
    buildTargetingContext_beverage_priority sampleUser scenePizzaProm (Or.inl (by decide))⟩

/-- A raw candidate record as produced by a catalog client's `search_products`
(the dict shape shared by `MockKrogerToolClient` and `KrogerAPIClient`). -/
structure Candidate where
  id : String
  name : String
  price : ℚ
  unit : String
  size : String
  in_stock : Bool
  image_url : Option String
deriving DecidableEq, Repr

/-- The filter dict passed to `search_products` by `find_kroger_products`. -/
structure SearchFilters where
  max_price : ℚ
  limit : Nat
  zip : Option String
deriving DecidableEq, Repr

/-- A catalog client's `search_products` operation, abstracted to a function
(the `ToolClient` capability interface of kroger_search.py). -/
def SearchFun : Type :=
  String → SearchFilters → List Candidate

/-- `_price_filter` (kroger_search.py). -/
def price_filter (price_sensitivity : PriceSensitivity) : ℚ :=
  match price_sensitivity with
  | PriceSensitivity.low => 8
  | PriceSensitivity.high => 20
  | PriceSensitivity.med => 12

/-- `_build_query` (kroger_search.py). -/
def build_query (product_key : String) (user : UserProfile) : String :=
  let prefs := user.dietary_preferences.map strLower
  if product_key = "pizza" then
    if prefs.contains "vegetarian" || prefs.contains "no_beef" || prefs.contains "no_pork" then
      "vegetarian frozen pizza"
    else
      "frozen pizza"
  else if product_key = "coke" then
    if dictGetQ user.brand_affinities "Coca-Cola" 0 ≥ (0.6 : ℚ) then "Coca-Cola" else "cola soda"
  else if product_key = "laptop" then
    "laptop computer"
  else
    product_key

/-- The brand-hit component of `_rank_results`: 1 when some bias brand's
lowercased name occurs as a substring of the candidate's lowercased name. -/
def brandHit (brand_bias : List String) (result : Candidate) : Int :=
  if brand_bias.any fun brand => strIn (strLower brand) (strLower result.name) then 1 else 0

/-- The `score` key of `_rank_results`: `(not in_stock, -brand_hit, ±price)`,
price negated exactly when `price_sensitivity == "high"`. -/
def score (price_sensitivity : PriceSensitivity) (brand_bias : List String)
    (result : Candidate) : Bool × Int × ℚ :=
  if price_sensitivity = PriceSensitivity.high then
    (!result.in_stock, -brandHit brand_bias result, -result.price)
  else
    (!result.in_stock, -brandHit brand_bias result, result.price)

/-- Lexicographic `≤` on score triples, with `False < True` on the Bool
component — Python's ordering on `(bool, int, float)` tuples. -/
def keyLe (x y : Bool × Int × ℚ) : Bool :=
  decide (x.1.toNat < y.1.toNat) ||
    (decide (x.1 = y.1) &&
      (decide (x.2.1 < y.2.1) || (decide (x.2.1 = y.2.1) && decide (x.2.2 ≤ y.2.2))))

/-- Score comparison between two candidates. -/
def scoreLe (price_sensitivity : PriceSensitivity) (brand_bias : List String)
    (a b : Candidate) : Bool :=
  keyLe (score price_sensitivity brand_bias a) (score price_sensitivity brand_bias b)

/-- `_rank_results` (kroger_search.py): Python's stable `sorted` by the score
key, modelled by the stable `List.mergeSort`. -/
def rank_results (results : List Candidate) (price_sensitivity : PriceSensitivity)
    (brand_bias : List String) : List Candidate :=
  results.mergeSort fun a b => scoreLe price_sensitivity brand_bias a b

/-- The `or`-defaulting of `image_url` in `find_kroger_products`: Python's
`product.get("image_url") or <default>` treats both `None` and `""` as falsy. -/
def imageUrlOrDefault (u : Option String) : String :=
  match u with
  | none => "https://images.kroger.com/product/generic-item.jpg"
  | some s => if s = "" then "https://images.kroger.com/product/generic-item.jpg" else s

/-- The `for fallback in fallback_queries` loop of `find_kroger_products`:
first query whose relaxed search is non-empty, with its results. -/
def fallbackLoop (client : SearchFun) (relaxed : SearchFilters) :
    List String → Option (String × List Candidate)
  | [] => none
  | q :: rest =>
      let rs := client q relaxed
      if rs.isEmpty then fallbackLoop client relaxed rest else some (q, rs)

/-- The fixed ordered fallback-term list of `find_kroger_products`. -/
def fallbackQueries (query product_key : String) : List String :=
  [query, product_key, "pizza", "Coca-Cola", "cola soda", "laptop computer"]

/-- `find_kroger_products` (kroger_search.py), over an abstract catalog
client.  Returns the top-3 ranked `ProductResult`s, each carrying the search
query that produced the result set. -/
def find_kroger_products (client : SearchFun) (product_key : String)
    (user_profile : UserProfile) (targeting_context : AdAttributes) : List ProductResult :=
  let query := build_query product_key user_profile
  let max_price := price_filter targeting_context.price_sensitivity
  let filters : SearchFilters := ⟨max_price, 6, user_profile.location_zip⟩
  let results := client query filters
  let qr :=
    if results.isEmpty then
      let relaxed : SearchFilters := ⟨max_price * 2, 10, user_profile.location_zip⟩
      match fallbackLoop client relaxed (fallbackQueries query product_key) with
      | some (q, rs) => (q, rs)
      | none => (query, [])
    else
      (query, results)
  let brand_bias := (user_profile.brand_affinities.filter fun kv => kv.2 ≥ (0.5 : ℚ)).map Prod.fst
  let ranked := rank_results qr.2 targeting_context.price_sensitivity brand_bias
  (ranked.take 3).map fun product =>
    { product_id := product.id
      name := product.name
      price := product.price
      size := product.size
      unit := product.unit
      in_stock := product.in_stock
      image_url := imageUrlOrDefault product.image_url
      kroger_search_query := qr.1 }

/-- C6: the Query Builder's four-way mapping.  The pizza and coke cases branch
on the user's lowercased dietary preferences and Coca-Cola affinity, laptop is
rewritten to `"laptop computer"`, and any other key passes through unchanged. -/
theorem build_query_cases (user : UserProfile) :
    (build_query "pizza" user =
      if ["vegetarian", "no_beef", "no_pork"].any (user.dietary_preferences.map strLower).contains
      then "vegetarian frozen pizza" else "frozen pizza") ∧
    (build_query "coke" user =
      if dictGetQ user.brand_affinities "Coca-Cola" 0 ≥ (0.6 : ℚ)
      then "Coca-Cola" else "cola soda") ∧
    (build_query "laptop" user = "laptop computer") ∧
    (∀ k : String, k ≠ "pizza" → k ≠ "coke" → k ≠ "laptop" → build_query k user = k) := by
  refine ⟨?_, ?_, ?_, ?_⟩
  · show (if (user.dietary_preferences.map strLower).contains "vegetarian" ||
        (user.dietary_preferences.map strLower).contains "no_beef" ||
        (user.dietary_preferences.map strLower).contains "no_pork" then
      "vegetarian frozen pizza" else "frozen pizza") = _
    congr 1
    simp [Bool.or_assoc]
  · rfl
  · rfl
  · intro k h1 h2 h3
    unfold build_query
    rw [if_neg h1, if_neg h2, if_neg h3]

/-- Witness for C6's pass-through conjunct at the concrete key `"granola"`. -/
theorem build_query_cases_witness :
    build_query "granola" sampleUser = "granola" :=
  (build_query_cases sampleUser).2.2.2 "granola"
    (by decide) (by decide) (by decide)

/-- `keyLe` is reflexive. -/
theorem keyLe_refl (x : Bool × Int × ℚ) : keyLe x x = true := by
  simp [keyLe]

/-- `keyLe` is total. -/
theorem keyLe_total (x y : Bool × Int × ℚ) : (keyLe x y || keyLe y x) = true := by
  rcases x with ⟨b1, i1, p1⟩
  rcases y with ⟨b2, i2, p2⟩
  simp only [keyLe, Bool.or_eq_true, Bool.and_eq_true, decide_eq_true_eq]
  cases b1 <;> cases b2 <;> simp
  all_goals
    rcases lt_trichotomy i1 i2 with hi | hi | hi
  · tauto
  · subst hi
    rcases le_total p1 p2 with h | h <;> tauto
  · tauto
  · tauto
  · subst hi
    rcases le_total p1 p2 with h | h <;> tauto
  · tauto

/-- `keyLe` is transitive. -/
theorem keyLe_trans {x y z : Bool × Int × ℚ}
    (h1 : keyLe x y = true) (h2 : keyLe y z = true) : keyLe x z = true := by
  rcases x with ⟨b1, i1, p1⟩
  rcases y with ⟨b2, i2, p2⟩
  rcases z with ⟨b3, i3, p3⟩
  simp only [keyLe, Bool.or_eq_true, Bool.and_eq_true, decide_eq_true_eq] at h1 h2 ⊢
  rcases h1 with h1 | ⟨hb1, h1⟩
  · rcases h2 with h2 | ⟨hb2, h2⟩
    · exact Or.inl (h1.trans h2)
    · exact Or.inl (hb2 ▸ h1)
  · subst hb1
    rcases h2 with h2 | ⟨hb2, h2⟩
    · exact Or.inl h2
    · subst hb2
      refine Or.inr ⟨rfl, ?_⟩
      rcases h1 with h1 | ⟨hi1, hp1⟩
      · rcases h2 with h2 | ⟨hi2, hp2⟩
        · exact Or.inl (h1.trans h2)
        · exact Or.inl (lt_of_lt_of_le h1 (le_of_eq hi2))
      · rcases h2 with h2 | ⟨hi2, hp2⟩
        · exact Or.inl (lt_of_le_of_lt (le_of_eq hi1) h2)
        · exact Or.inr ⟨hi1.trans hi2, hp1.trans hp2⟩

/-- `scoreLe` is transitive. -/
theorem scoreLe_trans (ps : PriceSensitivity) (bb : List String)
    (x y z : Candidate) (h1 : scoreLe ps bb x y = true) (h2 : scoreLe ps bb y z = true) :
    scoreLe ps bb x z = true :=
  keyLe_trans h1 h2

/-- `scoreLe` is total. -/
theorem scoreLe_total (ps : PriceSensitivity) (bb : List String) (x y : Candidate) :
    (scoreLe ps bb x y || scoreLe ps bb y x) = true :=
  keyLe_total _ _

/-- Componentwise consequences of one `keyLe` step. -/
theorem keyLe_components {b1 b2 : Bool} {i1 i2 : Int} {p1 p2 : ℚ}
    (h : keyLe (b1, i1, p1) (b2, i2, p2) = true) :
    (b1 = true → b2 = true) ∧ (b1 = b2 → i1 ≤ i2) ∧ (b1 = b2 → i1 = i2 → p1 ≤ p2) := by
  simp only [keyLe, Bool.or_eq_true, Bool.and_eq_true, decide_eq_true_eq] at h
  refine ⟨?_, ?_, ?_⟩
  · intro hb1
    rcases h with h | ⟨he, -⟩
    · subst hb1
      cases b2
      · simp at h
      · rfl
    · rw [← he]
      exact hb1
  · intro he
    rcases h with h | ⟨-, h⟩
    · exfalso
      rw [he] at h
      omega
    · rcases h with h | ⟨h, -⟩
      · exact le_of_lt h
      · exact le_of_eq h
  · intro he hi
    rcases h with h | ⟨-, h⟩
    · exfalso
      rw [he] at h
      omega
    · rcases h with h | ⟨-, h⟩
      · exfalso
        omega
      · exact h

/-- `score` with the price-direction `if` pushed into the third component. -/
theorem score_eq (ps : PriceSensitivity) (bb : List String) (r : Candidate) :
    score ps bb r = (!r.in_stock, -brandHit bb r,
      if ps = PriceSensitivity.high then -r.price else r.price) := by
  unfold score
  by_cases hps : ps = PriceSensitivity.high <;> simp [hps]

/-- A `scoreLe`-step between two candidates yields the claim's three readable
ordering facts: out-of-stock sorts after in-stock, brand hits sort first within
a stock group, and within equal stock/brand-hit groups the price follows the
price-sensitivity direction. -/
theorem scoreLe_imp (ps : PriceSensitivity) (bb : List String) {a b : Candidate}
    (h : scoreLe ps bb a b = true) :
    (a.in_stock = false → b.in_stock = false) ∧
      (a.in_stock = b.in_stock → brandHit bb b ≤ brandHit bb a) ∧
      (a.in_stock = b.in_stock → brandHit bb a = brandHit bb b →
        if ps = PriceSensitivity.high then b.price ≤ a.price else a.price ≤ b.price) := by
  have hkey : keyLe (score ps bb a) (score ps bb b) = true := h
  rw [score_eq, score_eq] at hkey
  obtain ⟨h1, h2, h3⟩ := keyLe_components hkey
  refine ⟨?_, ?_, ?_⟩
  · intro ha
    have hb := h1 (by rw [ha]; rfl)
    cases hbs : b.in_stock
    · rfl
    · rw [hbs] at hb
      simp at hb
  · intro he
    have := h2 (by rw [he])
    omega
  · intro he hbh
    have h4 := h3 (by rw [he]) (by rw [hbh])
    by_cases hps : ps = PriceSensitivity.high
    · simp only [if_pos hps] at h4 ⊢
      linarith
    · simp only [if_neg hps] at h4 ⊢
      exact h4

/-- C4: the Result Ranker returns a permutation of its input that is sorted
ascending by the key `(out-of-stock-first flag, −brand_hit, price-direction)`;
consequently along the output every out-of-stock candidate follows all
in-stock ones, brand-hit candidates precede non-hits within a stock group, and
within equal stock/brand-hit groups prices are non-increasing when
`price_sensitivity` is high and non-decreasing otherwise (low/med). -/
theorem rank_results_sorted (results : List Candidate) (ps : PriceSensitivity)
    (bb : List String) :
    (rank_results results ps bb).Perm results ∧
      (rank_results results ps bb).Pairwise (fun a b => scoreLe ps bb a b = true) ∧
      (rank_results results ps bb).Pairwise (fun a b =>
        (a.in_stock = false → b.in_stock = false) ∧
          (a.in_stock = b.in_stock → brandHit bb b ≤ brandHit bb a) ∧
          (a.in_stock = b.in_stock → brandHit bb a = brandHit bb b →
            if ps = PriceSensitivity.high then b.price ≤ a.price else a.price ≤ b.price)) := by
  have hsorted : (rank_results results ps bb).Pairwise (fun a b => scoreLe ps bb a b = true) :=
    List.sorted_mergeSort (scoreLe_trans ps bb) (scoreLe_total ps bb) results
  refine ⟨List.mergeSort_perm results _, hsorted, ?_⟩
  exact hsorted.imp fun h => scoreLe_imp ps bb h

/-- C5: the Result Ranker is stable — two candidates with equal price, equal
brand-hit and both in stock have equal sort keys, so their relative order in
the output matches their relative order in the input. -/
theorem rank_results_stable (results : List Candidate) (ps : PriceSensitivity)
    (bb : List String) (a b : Candidate)
    (hsub : [a, b].Sublist results)
    (hprice : a.price = b.price)
    (hbrand : brandHit bb a = brandHit bb b)
    (ha : a.in_stock = true) (hb : b.in_stock = true) :
    [a, b].Sublist (rank_results results ps bb) := by
  have hscore : score ps bb a = score ps bb b := by
    unfold score
    rw [hprice, hbrand, ha, hb]
  have hab : scoreLe ps bb a b = true := by
    show keyLe (score ps bb a) (score ps bb b) = true
    rw [hscore]
    exact keyLe_refl _
  exact List.pair_sublist_mergeSort (scoreLe_trans ps bb) (scoreLe_total ps bb) hab hsub

/-- An in-stock candidate (used as a concrete ranking input). -/
def candA : Candidate :=
  ⟨"id1", "Frozen Pizza Alpha", 6.49, "item", "1 unit", true, none⟩

/-- A second in-stock candidate with the same price as `candA`. -/
def candB : Candidate :=
  ⟨"id2", "Frozen Pizza Beta", 6.49, "item", "1 unit", true, some "https://img"⟩

/-- Witness for C5: two equal-priced in-stock candidates with no brand match
keep their input order in the ranked output. -/
theorem rank_results_stable_witness :
    candA.price = candB.price ∧ brandHit [] candA = brandHit [] candB ∧
      candA.in_stock = true ∧ candB.in_stock = true ∧
      [candA, candB].Sublist (rank_results [candA, candB] PriceSensitivity.med []) :=
  ⟨rfl, by decide, rfl, rfl,
    rank_results_stable [candA, candB] PriceSensitivity.med [] candA candB
      (List.Sublist.refl _) rfl (by decide) rfl rfl⟩

/-- The fallback loop stops at the first query whose relaxed search is
non-empty and returns that query with its result set. -/
theorem fallbackLoop_split (client : SearchFun) (relaxed : SearchFilters) :
    ∀ (l₁ : List String) (fb : String) (l₂ : List String),
      (∀ q ∈ l₁, client q relaxed = []) → client fb relaxed ≠ [] →
      fallbackLoop client relaxed (l₁ ++ fb :: l₂) = some (fb, client fb relaxed) := by
  intro l₁
  induction l₁ with
  | nil =>
      intro fb l₂ _ hfb
      cases hrs : client fb relaxed with
      | nil => exact absurd hrs hfb
      | cons x xs => simp [fallbackLoop, hrs]
  | cons q rest ih =>
      intro fb l₂ hall hfb
      have hq : client q relaxed = [] := hall q (by simp)
      simp only [List.cons_append, fallbackLoop, hq, List.isEmpty_nil, if_true]
      exact ih fb l₂ (fun r hr => hall r (by simp [hr])) hfb

/-- A non-empty list keeps a non-empty 3-prefix under `map`. -/
theorem take3_map_ne_nil {l : List Candidate} (f : Candidate → ProductResult)
    (h : l ≠ []) : (l.take 3).map f ≠ [] := by
  cases l with
  | nil => exact absurd rfl h
  | cons x xs => simp

/-- C3: when the primary search is empty and some fallback term has a
non-empty relaxed search, `find_kroger_products` uses the first such term:
the final ranked list is non-empty and every returned product records that
term as its `kroger_search_query`. -/
theorem find_kroger_products_fallback
    (client : SearchFun) (product_key : String) (user : UserProfile) (ctx : AdAttributes)
    (l₁ l₂ : List String) (fb : String)
    (hsplit : fallbackQueries (build_query product_key user) product_key = l₁ ++ fb :: l₂)
    (hprimary : client (build_query product_key user)
      ⟨price_filter ctx.price_sensitivity, 6, user.location_zip⟩ = [])
    (hbefore : ∀ q ∈ l₁,
      client q ⟨price_filter ctx.price_sensitivity * 2, 10, user.location_zip⟩ = [])
    (hfb : client fb ⟨price_filter ctx.price_sensitivity * 2, 10, user.location_zip⟩ ≠ []) :
    find_kroger_products client product_key user ctx ≠ [] ∧
      ∀ r ∈ find_kroger_products client product_key user ctx,
        r.kroger_search_query = fb := by
  have hloop := fallbackLoop_split client
    ⟨price_filter ctx.price_sensitivity * 2, 10, user.location_zip⟩ l₁ fb l₂ hbefore hfb
  have hrank : rank_results
      (client fb ⟨price_filter ctx.price_sensitivity * 2, 10, user.location_zip⟩)
      ctx.price_sensitivity
      ((user.brand_affinities.filter fun kv => kv.2 ≥ (0.5 : ℚ)).map Prod.fst) ≠ [] := by
    intro hnil
    apply hfb
    have hperm := List.mergeSort_perm
      (client fb ⟨price_filter ctx.price_sensitivity * 2, 10, user.location_zip⟩)
      (fun a b => scoreLe ctx.price_sensitivity
        ((user.brand_affinities.filter fun kv => kv.2 ≥ (0.5 : ℚ)).map Prod.fst) a b)
    rw [show List.mergeSort
        (client fb ⟨price_filter ctx.price_sensitivity * 2, 10, user.location_zip⟩)
        (fun a b => scoreLe ctx.price_sensitivity
          ((user.brand_affinities.filter fun kv => kv.2 ≥ (0.5 : ℚ)).map Prod.fst) a b) =
      rank_results
        (client fb ⟨price_filter ctx.price_sensitivity * 2, 10, user.location_zip⟩)
        ctx.price_sensitivity
        ((user.brand_affinities.filter fun kv => kv.2 ≥ (0.5 : ℚ)).map Prod.fst)
      from rfl, hnil] at hperm
    exact List.Perm.eq_nil hperm.symm
  unfold find_kroger_products
  simp only [hsplit, hprimary, hloop, List.isEmpty_nil, if_true]
  constructor
  · exact take3_map_ne_nil _ hrank
  · intro r hr
    simp only [List.mem_map] at hr
    obtain ⟨c, -, rfl⟩ := hr
    rfl

/-- A neutral targeting context with medium price sensitivity. -/
def ctxMed : AdAttributes :=
  ⟨"snacks", PriceSensitivity.med, HealthTilt.balanced, DeliveryPreference.any⟩

/-- A user with no preferences or affinities. -/
def plainUser : UserProfile :=
  ⟨"18-24", 1, none, none, [], [], [], "weekend", []⟩

/-- A pizza candidate served by the fallback-only client. -/
def candPizza : Candidate :=
  ⟨"kp1", "Frozen Pizza", 6, "item", "1 unit", true, none⟩

/-- A catalog client that only answers the relaxed-filter `"pizza"` search. -/
def fallbackOnlyClient : SearchFun := fun q f =>
  if q = "pizza" ∧ f.limit = 10 then [candPizza] else []

/-- Witness for C3: the primary `"gadget"` search is empty, the first two
fallback terms fail, `"pizza"` succeeds, and every returned product records
`"pizza"` as its search query. -/
theorem find_kroger_products_fallback_witness :
    fallbackQueries (build_query "gadget" plainUser) "gadget" =
        ["gadget", "gadget"] ++ "pizza" :: ["Coca-Cola", "cola soda", "laptop computer"] ∧
      fallbackOnlyClient (build_query "gadget" plainUser)
        ⟨price_filter ctxMed.price_sensitivity, 6, plainUser.location_zip⟩ = [] ∧
      (find_kroger_products fallbackOnlyClient "gadget" plainUser ctxMed ≠ [] ∧
        ∀ r ∈ find_kroger_products fallbackOnlyClient "gadget" plainUser ctxMed,
          r.kroger_search_query = "pizza") :=
  ⟨by decide, by decide,
    find_kroger_products_fallback fallbackOnlyClient "gadget" plainUser ctxMed
      ["gadget", "gadget"] ["Coca-Cola", "cola soda", "laptop computer"] "pizza"
      (by decide) (by decide) (by decide) (by decide)⟩

/-- The `label_map` of `SeamlessAdService._select_overlay` (service.py):
the anchor label set associated with a product key (`.get(key, set())`). -/
def labelMapLabels (product_key : String) : List String :=
  if product_key = "pizza" then ["pizza"]
  else if product_key = "coke" then ["soda", "cola", "coke", "can", "beverage"]
  else if product_key = "laptop" then ["laptop", "computer", "device"]
  else []

/-- Python's `max(objs, key=lambda o: o.confidence)` over detected objects:
first maximum wins on equal confidence; `none` on an empty list. -/
def maxByConfidence (objs : List DetectedObject) : Option DetectedObject :=
  objs.foldl
    (fun acc o =>
      match acc with
      | none => some o
      | some m => if o.confidence > m.confidence then some o else acc)
    none

/-- `SeamlessAdService._select_overlay` (service.py). -/
def select_overlay (scene : VideoMetadata) (product_key : String) : OverlaySpec :=
  let labels := labelMapLabels product_key
  let firstHit := scene.detected_objects.find? fun o => labels.contains (strLower o.label)
  let chosen :=
    match firstHit with
    | some o => some o
    | none => maxByConfidence scene.detected_objects
  match chosen with
  | none => ⟨[0.1, 0.1, 0.2, 0.2], "unknown", product_key⟩
  | some o => ⟨o.bbox, o.label, product_key⟩

/-- `SeamlessAdService.generate_ad_response` (service.py) over a pure catalog
client. -/
def generate_ad_response (client : SearchFun) (user : UserProfile)
    (scene : VideoMetadata) : SeamlessAdResponse :=
  let rec3 := recommend user scene
  let product_key := rec3.1
  let rationale := rec3.2.1
  let targeting := rec3.2.2
  let overlay := select_overlay scene product_key
  let kroger_results := find_kroger_products client product_key user targeting
  { scene_id := scene.scene_id
    timestamp_range := scene.timestamp_range
    overlay := overlay
    user_profile := user
    targeting_context := targeting
    kroger_results := kroger_results
    rationale := rationale }

/-- A catalog client whose `search_products` may raise (`Except.error`), as a
real networked backend can (kroger_search.py `KrogerAPIClient.search_products`
calls `raise_for_status`). -/
def SearchFunE : Type :=
  String → SearchFilters → Except String (List Candidate)

/-- The fallback loop of `find_kroger_products` over a raising client: the
source has no try/except, so an exception anywhere propagates. -/
def fallbackLoopE (client : SearchFunE) (relaxed : SearchFilters) :
    List String → Except String (Option (String × List Candidate))
  | [] => Except.ok none
  | q :: rest => do
      let rs ← client q relaxed
      if rs.isEmpty then fallbackLoopE client relaxed rest
      else pure (some (q, rs))

/-- `find_kroger_products` over a raising client: identical control flow to
the pure version, with every `search_products` call bound in `Except` since
the source wraps none of them in a try/except. -/
def find_kroger_productsE (client : SearchFunE) (product_key : String)
    (user_profile : UserProfile) (targeting_context : AdAttributes) :
    Except String (List ProductResult) := do
  let query := build_query product_key user_profile
  let max_price := price_filter targeting_context.price_sensitivity
  let results ← client query ⟨max_price, 6, user_profile.location_zip⟩
  let qr ←
    if results.isEmpty then do
      let fb ← fallbackLoopE client ⟨max_price * 2, 10, user_profile.location_zip⟩
        (fallbackQueries query product_key)
      match fb with
      | some (q, rs) => pure (q, rs)
      | none => pure (query, ([] : List Candidate))
    else
      pure (query, results)
  let brand_bias := (user_profile.brand_affinities.filter fun kv => kv.2 ≥ (0.5 : ℚ)).map Prod.fst
  let ranked := rank_results qr.2 targeting_context.price_sensitivity brand_bias
  pure ((ranked.take 3).map fun product =>
    { product_id := product.id
      name := product.name
      price := product.price
      size := product.size
      unit := product.unit
      in_stock := product.in_stock
      image_url := imageUrlOrDefault product.image_url
      kroger_search_query := qr.1 })

/-- `generate_ad_response` over a raising client: `service.py` has no
try/except either, so a catalog exception propagates out of the request. -/
def generate_ad_responseE (client : SearchFunE) (user : UserProfile)
    (scene : VideoMetadata) : Except String SeamlessAdResponse := do
  let rec3 := recommend user scene
  let product_key := rec3.1
  let rationale := rec3.2.1
  let targeting := rec3.2.2
  let overlay := select_overlay scene product_key
  let kroger_results ← find_kroger_productsE client product_key user targeting
  pure
    { scene_id := scene.scene_id
      timestamp_range := scene.timestamp_range
      overlay := overlay
      user_profile := user
      targeting_context := targeting
      kroger_results := kroger_results
      rationale := rationale }

/-- A catalog backend that fails (raises/times out) on every search. -/
def raisingClient : SearchFunE := fun _ _ => Except.error "catalog timeout"

/-- Counterexample to C7 as stated: with a catalog backend that raises on
every search, the exception is not recovered by the fallback sequence — the
source catches nothing — and `generate_ad_response` propagates the failure
instead of assembling any response. -/
theorem generate_ad_responseE_raises :
    generate_ad_responseE raisingClient sampleUser scenePizzaProm =
        Except.error "catalog timeout" ∧
      ∀ resp : SeamlessAdResponse,
        generate_ad_responseE raisingClient sampleUser scenePizzaProm ≠ Except.ok resp := by
  refine ⟨rfl, ?_⟩
  intro resp h
  rw [show generate_ad_responseE raisingClient sampleUser scenePizzaProm =
    Except.error "catalog timeout" from rfl] at h
  exact Except.noConfusion h

/-- C7 as amended: exceptions propagate (nothing catches them), and the
locally recovered failure mode is the zero-result search: when the primary
search and every fallback search return zero results without raising,
`generate_ad_response` still assembles the complete response, with an empty
ranked-results list. -/
theorem generate_ad_responseE_all_empty (client : SearchFunE) (user : UserProfile)
    (scene : VideoMetadata) (h : ∀ q f, client q f = Except.ok []) :
    generate_ad_responseE client user scene =
      Except.ok
        { scene_id := scene.scene_id
          timestamp_range := scene.timestamp_range
          overlay := select_overlay scene (recommend user scene).1
          user_profile := user
          targeting_context := (recommend user scene).2.2
          kroger_results := []
          rationale := (recommend user scene).2.1 } := by
  unfold generate_ad_responseE find_kroger_productsE fallbackLoopE
  simp only [h, fallbackQueries]
  simp [fallbackLoopE, h, rank_results, Except.bind, bind, pure, Except.pure]

/-- A catalog backend that returns zero results, without raising, on every
search. -/
def emptyOkClient : SearchFunE := fun _ _ => Except.ok []

/-- Witness for C7 (amended): with the all-empty backend the response is still
assembled, with an empty ranked-results list. -/
theorem generate_ad_responseE_all_empty_witness :
    (∀ q f, emptyOkClient q f = Except.ok []) ∧
      generate_ad_responseE emptyOkClient sampleUser scenePizzaProm =
        Except.ok
          { scene_id := scenePizzaProm.scene_id
            timestamp_range := scenePizzaProm.timestamp_range
            overlay := select_overlay scenePizzaProm (recommend sampleUser scenePizzaProm).1
            user_profile := sampleUser
            targeting_context := (recommend sampleUser scenePizzaProm).2.2
            kroger_results := []
            rationale := (recommend sampleUser scenePizzaProm).2.1 } :=
  ⟨fun _ _ => rfl,
    generate_ad_responseE_all_empty emptyOkClient sampleUser scenePizzaProm fun _ _ => rfl⟩

/-- Validating constructor for `DetectedObject` (schemas.py): pydantic checks
`confidence` against `ge=0.0, le=1.0` and the `validate_bbox` field validator
rejects a bbox that is not `[x, y, w, h]`. -/
def mkDetectedObject (label : String) (confidence : ℚ) (bbox : List ℚ) :
    Option DetectedObject :=
  if 0 ≤ confidence ∧ confidence ≤ 1 ∧ bbox.length = 4 then
    some ⟨label, confidence, bbox⟩
  else
    none

/-- Validating constructor for `UserProfile` (schemas.py): pydantic checks
`household_size` against `ge=1, le=8`; no other field carries a constraint. -/
def mkUserProfile (age_range : String) (household_size : Int)
    (location_zip location_metro : Option String) (dietary_preferences : List String)
    (brand_affinities cuisine_affinities : List (String × ℚ))
    (watch_time_context : String) (engagement_signals : List (String × Bool)) :
    Option UserProfile :=
  if 1 ≤ household_size ∧ household_size ≤ 8 then
    some ⟨age_range, household_size, location_zip, location_metro, dietary_preferences,
      brand_affinities, cuisine_affinities, watch_time_context, engagement_signals⟩
  else
    none

/-- Validating constructor for `VideoMetadata` (schemas.py): the
`validate_timestamp_range` field validator checks only that the range has
exactly two elements — no ordering or sign check. -/
def mkVideoMetadata (scene_id : String) (timestamp_range : List ℚ)
    (detected_objects : List DetectedObject) (scene_tags dialogue_keywords : List String)
    (episode : Option EpisodeMetadata) : Option VideoMetadata :=
  if timestamp_range.length = 2 then
    some ⟨scene_id, timestamp_range, detected_objects, scene_tags, dialogue_keywords, episode⟩
  else
    none

/-- C8: construction of the input value objects validates exactly as claimed —
a DetectedObject is rejected iff its bbox is not length 4 or its confidence is
outside `[0, 1]`; a UserProfile is rejected iff its household size is outside
`[1, 8]`; a VideoMetadata is rejected iff its timestamp range is not length 2,
and any two-element range is accepted, even decreasing or negative ones. -/
theorem schema_validation :
    (∀ (label : String) (confidence : ℚ) (bbox : List ℚ),
      mkDetectedObject label confidence bbox = none ↔
        (bbox.length ≠ 4 ∨ confidence < 0 ∨ 1 < confidence)) ∧
      (∀ (ar : String) (hs : Int) (lz lm : Option String) (dp : List String)
          (ba ca : List (String × ℚ)) (wtc : String) (es : List (String × Bool)),
        mkUserProfile ar hs lz lm dp ba ca wtc es = none ↔ (hs < 1 ∨ 8 < hs)) ∧
      (∀ (sid : String) (tr : List ℚ) (dos : List DetectedObject)
          (tags dks : List String) (ep : Option EpisodeMetadata),
        mkVideoMetadata sid tr dos tags dks ep = none ↔ tr.length ≠ 2) ∧
      (∀ (sid : String) (a b : ℚ) (dos : List DetectedObject)
          (tags dks : List String) (ep : Option EpisodeMetadata),
        mkVideoMetadata sid [a, b] dos tags dks ep =
          some ⟨sid, [a, b], dos, tags, dks, ep⟩) := by
  refine ⟨?_, ?_, ?_, ?_⟩
  · intro label confidence bbox
    rw [mkDetectedObject, ite_eq_right_iff]
    constructor
    · intro h
      by_cases h4 : bbox.length = 4
      · by_cases hc0 : 0 ≤ confidence
        · by_cases hc1 : confidence ≤ 1
          · exact absurd (h ⟨hc0, hc1, h4⟩) (Option.some_ne_none _)
          · exact Or.inr (Or.inr (not_le.mp hc1))
        · exact Or.inr (Or.inl (not_le.mp hc0))
      · exact Or.inl h4
    · intro hr hcond
      rcases hr with h | h | h
      · exact absurd hcond.2.2 h
      · exact absurd hcond.1 (not_le.mpr h)
      · exact absurd hcond.2.1 (not_le.mpr h)
  · intro ar hs lz lm dp ba ca wtc es
    rw [mkUserProfile, ite_eq_right_iff]
    constructor
    · intro h
      by_cases h1 : 1 ≤ hs ∧ hs ≤ 8
      · exact absurd (h h1) (Option.some_ne_none _)
      · omega
    · intro hr hcond
      exact absurd hcond (by omega)
  · intro sid tr dos tags dks ep
    rw [mkVideoMetadata, ite_eq_right_iff]
    constructor
    · intro h
      by_cases h2 : tr.length = 2
      · exact absurd (h h2) (Option.some_ne_none _)
      · exact h2
    · intro hr hcond
      exact absurd hcond hr
  · intro sid a b dos tags dks ep
    simp [mkVideoMetadata]

/-- Persona `"A"` of `USER_PERSONAS` (user_profiles.py). -/
def personaA : UserProfile :=
  { age_range := "25-34"
    household_size := 2
    location_zip := some "94107"
    location_metro := some "SF Bay Area"
    dietary_preferences := ["comfort_food", "no_beef"]
    brand_affinities := [("Coca-Cola", 0.85), ("Pepsi", 0.2)]
    cuisine_affinities := [("Italian", 0.7), ("Mexican", 0.4)]
    watch_time_context := "late_night"
    engagement_signals := [("often_pauses_for_food_scenes", true), ("often_uses_deals", true),
      ("prefers_delivery", true)] }

/-- Persona `"B"` of `USER_PERSONAS` (user_profiles.py). -/
def personaB : UserProfile :=
  { age_range := "30-44"
    household_size := 1
    location_zip := some "98109"
    location_metro := some "Seattle Metro"
    dietary_preferences := ["balanced", "low_sugar"]
    brand_affinities := [("Spindrift", 0.6), ("Coca-Cola", 0.3)]
    cuisine_affinities := [("Japanese", 0.6), ("Mediterranean", 0.5)]
    watch_time_context := "weekday_evening"
    engagement_signals := [("prefers_pickup", true), ("prefers_premium", true)] }

/-- `USER_PERSONAS` (user_profiles.py): the static persona registry. -/
def USER_PERSONAS : List (String × UserProfile) :=
  [("A", personaA), ("B", personaB)]

/-- `model_copy(deep=True)` on a `UserProfile`: a structural deep copy that
rebuilds the record and each of its container fields. -/
def deepCopyProfile (p : UserProfile) : UserProfile :=
  { age_range := p.age_range
    household_size := p.household_size
    location_zip := p.location_zip.map id
    location_metro := p.location_metro.map id
    dietary_preferences := p.dietary_preferences.map id
    brand_affinities := p.brand_affinities.map id
    cuisine_affinities := p.cuisine_affinities.map id
    watch_time_context := p.watch_time_context
    engagement_signals := p.engagement_signals.map id }

/-- `get_user_profile` (user_profiles.py): strip and uppercase the key, look
it up in the static registry, raise a `ValueError` naming the raw key when
absent, and return a deep copy of the registered profile when present. -/
def get_user_profile (user_key : String) : Except String UserProfile :=
  let normalized := strUpper (strStrip user_key)
  match USER_PERSONAS.lookup normalized with
  | none => Except.error ("Unknown user_key '" ++ user_key ++ "'. Available: A, B")
  | some p => Except.ok (deepCopyProfile p)

/-- C9: when the normalized key is absent from the static registry,
`get_user_profile` fails fast with a descriptive error naming the raw key —
it never substitutes a default persona — and when the key is present it
returns the registered profile (as a deep copy). -/
theorem get_user_profile_spec (k : String) :
    (USER_PERSONAS.lookup (strUpper (strStrip k)) = none →
      get_user_profile k =
        Except.error ("Unknown user_key '" ++ k ++ "'. Available: A, B")) ∧
      ∀ p, USER_PERSONAS.lookup (strUpper (strStrip k)) = some p →
        get_user_profile k = Except.ok (deepCopyProfile p) := by
  constructor
  · intro h
    simp [get_user_profile, h]
  · intro p h
    simp [get_user_profile, h]

/-- Witness for C9: the unknown key `"Z"` is rejected with the descriptive
error, and the known key `"b"` resolves to persona B. -/
theorem get_user_profile_spec_witness :
    USER_PERSONAS.lookup (strUpper (strStrip "Z")) = none ∧
      get_user_profile "Z" =
        Except.error ("Unknown user_key '" ++ "Z" ++ "'. Available: A, B") ∧
      USER_PERSONAS.lookup (strUpper (strStrip "b")) = some personaB ∧
      get_user_profile "b" = Except.ok (deepCopyProfile personaB) :=
  ⟨by decide, (get_user_profile_spec "Z").1 (by decide), rfl,
    (get_user_profile_spec "b").2 personaB rfl⟩

/-- The deep copy preserves the profile's value. -/
theorem deepCopyProfile_eq (p : UserProfile) : deepCopyProfile p = p := by
  unfold deepCopyProfile
  simp

/-- C10: `get_user_profile` normalizes its key by stripping whitespace and
uppercasing before the lookup — two keys with the same normalization accept
exactly the same profiles — and a successful lookup returns a structural deep
copy of the registered profile, equal in value to the registry entry, which
itself is a constant never modified by the function. -/
theorem get_user_profile_normalized (k₁ k₂ : String)
    (h : strUpper (strStrip k₁) = strUpper (strStrip k₂)) :
    (∀ p, get_user_profile k₁ = Except.ok p ↔ get_user_profile k₂ = Except.ok p) ∧
      (∀ entry, USER_PERSONAS.lookup (strUpper (strStrip k₁)) = some entry →
        get_user_profile k₁ = Except.ok (deepCopyProfile entry) ∧
          deepCopyProfile entry = entry) := by
  constructor
  · intro p
    cases hq : USER_PERSONAS.lookup (strUpper (strStrip k₂)) with
    | none => simp [get_user_profile, h, hq]
    | some q => simp [get_user_profile, h, hq]
  · intro entry hentry
    refine ⟨?_, deepCopyProfile_eq entry⟩
    simp [get_user_profile, hentry]

/-- Witness for C10: `" a "` and `"A"` normalize identically, so `" a "`
resolves to persona A exactly as `"A"` does. -/
theorem get_user_profile_normalized_witness :
    strUpper (strStrip " a ") = strUpper (strStrip "A") ∧
      (get_user_profile " a " = Except.ok personaA ↔
        get_user_profile "A" = Except.ok personaA) ∧
      get_user_profile " a " = Except.ok (deepCopyProfile personaA) ∧
      deepCopyProfile personaA = personaA :=
  ⟨by decide,
    (get_user_profile_normalized " a " "A" (by decide)).1 personaA,
    ((get_user_profile_normalized " a " "A" (by decide)).2 personaA rfl).1,
    ((get_user_profile_normalized " a " "A" (by decide)).2 personaA rfl).2⟩
